import Mathlib

/-!
Shallow embedding of the delayed-job scheduler core of the `dilemmas`
backend (`src/dilemma-backend/src/services/scheduler.service.ts`), its
cache helper (`CacheService` in the database config module) and the
statistics aggregate (`StatsService.getGlobalStats` in
`dilemma.service.ts`).

Times are modelled as integers (milliseconds since the epoch, as returned
by `Date.getTime()` / `Date.now()` in the source).  The job queue backing
store (the Bull library) is not part of this repository; its operations
(`enqueue` via `queue.add` with a `jobId`, `getJob`, `remove`, retry with
exponential backoff, cron repetition) are modelled from the spec's JobStore
and RetryPolicy contracts and marked as such in their doc comments.
-/

namespace Dilemmas

/-- Job types registered by `setupWorkers`: `'publish'`, `'reveal'` and
`'daily-scheduler'`. -/
inductive JobType where
  | publish
  | reveal
  | dailyScheduler
deriving DecidableEq, Repr

/-- Job states of the store: `Pending` (delay not yet elapsed), `Ready`
(due, awaiting a worker), `Active` (claimed), `Completed`, `Failed`. -/
inductive JobState where
  | pending
  | ready
  | active
  | completed
  | failed
deriving DecidableEq, Repr

/-- A queued job: idempotency key `id`, its type, the dilemma id payload,
the absolute `notBefore` instant, current state and attempt count. -/
structure QJob where
  id : String
  jtype : JobType
  payload : String
  notBefore : Int
  state : JobState
  attempts : Nat
deriving DecidableEq, Repr

/-- The job store: the set of jobs currently tracked, keyed by `id`. -/
abbrev JobStore := List QJob

/-- A job is live when it is in a non-terminal state. -/
def QJob.isLive (j : QJob) : Bool :=
  j.state ≠ JobState.completed && j.state ≠ JobState.failed

/-- A job may be claimed by a worker when it is pending/ready and its
`notBefore` has elapsed. -/
def QJob.isClaimable (j : QJob) (now : Int) : Bool :=
  (j.state = JobState.pending || j.state = JobState.ready) && j.notBefore ≤ now

/-- Whether the store holds a job with the given id. -/
def containsId (s : JobStore) (jobId : String) : Bool :=
  List.any s (fun j => j.id = jobId)

/-- Modelled from the spec: the JobStore `enqueue(job, delay)` contract
behind `queue.add(name, data, { delay, jobId })` — Bull's code is not in
this repository.  Inserts or replaces the job keyed by its id, with
`notBefore = now + delay` and state `Pending`; a non-positive delay is
rejected as a no-op. -/
def enqueue (s : JobStore) (jobId : String) (t : JobType) (payload : String)
    (delay now : Int) : JobStore :=
  if 0 < delay then
    List.filter (fun j => j.id ≠ jobId) s ++
      [{ id := jobId, jtype := t, payload := payload,
         notBefore := now + delay, state := JobState.pending, attempts := 0 }]
  else s

/-- Modelled from the spec: the JobStore `getJob(jobId)` lookup used by
`unscheduleDilemma` — Bull's code is not in this repository. -/
def getJob (s : JobStore) (jobId : String) : Option QJob :=
  List.find? (fun j => j.id = jobId) s

/-- Modelled from the spec: the JobStore `remove(jobId)` operation behind
`job.remove()` — Bull's code is not in this repository.  Deletes the job
with the given id; no-op if absent. -/
def removeJob (s : JobStore) (jobId : String) : JobStore :=
  List.filter (fun j => j.id ≠ jobId) s

/-- `SchedulerService.scheduleDilemma(dilemmaId, publishDate, revealTime)`:
computes `publishDelay = publishDate - now` and `revealDelay =
revealTime - now`, then enqueues a publish job with id
`"publish-<dilemmaId>"` when `publishDelay > 0` and a reveal job with id
`"reveal-<dilemmaId>"` when `revealDelay > 0`. -/
def scheduleDilemma (s : JobStore) (dilemmaId : String)
    (publishDate revealTime now : Int) : JobStore :=
  let publishDelay := publishDate - now
  let revealDelay := revealTime - now
  let s1 :=
    if 0 < publishDelay then
      enqueue s ("publish-" ++ dilemmaId) JobType.publish dilemmaId publishDelay now
    else s
  if 0 < revealDelay then
    enqueue s1 ("reveal-" ++ dilemmaId) JobType.reveal dilemmaId revealDelay now
  else s1

/-- `SchedulerService.unscheduleDilemma(dilemmaId)`: looks up the
`publish-<dilemmaId>` and `reveal-<dilemmaId>` jobs and removes each one
that is present. -/
def unscheduleDilemma (s : JobStore) (dilemmaId : String) : JobStore :=
  let publishJobId := "publish-" ++ dilemmaId
  let revealJobId := "reveal-" ++ dilemmaId
  let s1 := if (getJob s publishJobId).isSome then removeJob s publishJobId else s
  if (getJob s1 revealJobId).isSome then removeJob s1 revealJobId else s1

/-- `SchedulerService.rescheduleDilemma(dilemmaId, publishDate, revealTime)`:
unschedule then schedule. -/
def rescheduleDilemma (s : JobStore) (dilemmaId : String)
    (publishDate revealTime now : Int) : JobStore :=
  scheduleDilemma (unscheduleDilemma s dilemmaId) dilemmaId publishDate revealTime now

/-- An item of the `dilemma` table as read by the scheduler: id plus the
`publishDate` and `revealTime` timestamps. -/
structure Dilemma where
  id : String
  publishDate : Int
  revealTime : Int
deriving DecidableEq, Repr

/-- The repository query inside `scheduleFutureDilemmas`:
`prisma.dilemma.findMany({ where: { publishDate: { gt: new Date() } },
orderBy: { publishDate: 'asc' } })`. -/
def futureDilemmas (repo : List Dilemma) (now : Int) : List Dilemma :=
  List.mergeSort (List.filter (fun d => now < d.publishDate) repo)
    (fun a b => a.publishDate ≤ b.publishDate)

/-- `SchedulerService.scheduleFutureDilemmas()`: fetches all dilemmas with
`publishDate > now` and calls `scheduleDilemma` on each. -/
def scheduleFutureDilemmas (repo : List Dilemma) (s : JobStore) (now : Int) :
    JobStore :=
  List.foldl (fun acc d => scheduleDilemma acc d.id d.publishDate d.revealTime now)
    s (futureDilemmas repo now)

/-! ## Retry policy

`defaultJobOptions` in the `SchedulerService` constructor sets
`attempts: 3` and `backoff: { type: 'exponential', delay: 2000 }`; the
retry machinery itself lives in Bull, outside this repository, and is
modelled from the spec's RetryPolicy contract. -/

/-- `attempts: 3` of `defaultJobOptions`. -/
def maxAttempts : Nat := 3

/-- `backoff.delay: 2000` (milliseconds) of `defaultJobOptions`. -/
def backoffBase : Int := 2000

/-- Decision of the retry policy after a failed attempt. -/
inductive RetryDecision where
  | retry (delay : Int)
  | giveUp
deriving DecidableEq, Repr

/-- Modelled from the spec: the RetryPolicy applied by the job store to a
failed attempt (Bull's retry code is not in this repository).  Given the
post-increment attempt count: retry after `base * 2^(attempts-1)` when
`attempts < maxAttempts`, otherwise give up. -/
def retryPolicy (attempts : Nat) : RetryDecision :=
  if attempts < maxAttempts then RetryDecision.retry (backoffBase * 2 ^ (attempts - 1))
  else RetryDecision.giveUp

/-- Modelled from the spec: the JobStore `fail(jobId, error)` transition
applied to one job (Bull's code is not in this repository).  An active job
has its attempt count incremented; it returns to `Pending` re-armed with
the backoff delay, or becomes terminally `Failed`, as the retry policy
decides. -/
def applyFail (j : QJob) (now : Int) : QJob :=
  if j.state = JobState.active then
    let a := j.attempts + 1
    match retryPolicy a with
    | RetryDecision.retry d =>
        { j with state := JobState.pending, attempts := a, notBefore := now + d }
    | RetryDecision.giveUp =>
        { j with state := JobState.failed, attempts := a }
  else j

/-! ## Daily reconciliation cron

`setupDailyCron` adds a repeating `'daily-scheduler'` job with
`repeat: { cron: '0 0 * * *' }`; its worker calls
`scheduleFutureDilemmas()`. Bull's cron engine is not in this repository
and is modelled from the spec's RepeatingTrigger contract. -/

/-- Milliseconds in one day. -/
def millisPerDay : Int := 24 * 60 * 60 * 1000

/-- Modelled from the spec: the first fire instant of the cron expression
`'0 0 * * *'` — the next local midnight after `now` (local days modelled as
uniform 24-hour windows; Bull's cron engine is not in this repository). -/
def nextMidnight (now : Int) : Int :=
  millisPerDay * (now / millisPerDay + 1)

/-- Modelled from the spec: the `k`-th fire instant of the repeating
`'daily-scheduler'` job armed at `now` (Bull's cron engine is not in this
repository): the next local midnight, then once every 24 hours. -/
def dailyCronFireTime (now : Int) (k : Nat) : Int :=
  nextMidnight now + k * millisPerDay

/-- The `'daily-scheduler'` worker of `setupWorkers`: its body calls
`this.scheduleFutureDilemmas()`. -/
def dailySchedulerHandler (repo : List Dilemma) (s : JobStore) (now : Int) :
    JobStore :=
  scheduleFutureDilemmas repo s now

/-! ## Statistics aggregate

`SchedulerService.precalculateStats` and `StatsService.getGlobalStats`
build the same aggregate object from `totalVotes` and `votesA`. -/

/-- One side of the aggregate: vote count and rounded percentage. -/
structure ChoiceStats where
  count : Nat
  percentage : Int
deriving DecidableEq, Repr

/-- The aggregate statistics object cached under `stats:global:<id>`. -/
structure GlobalStats where
  totalVotes : Nat
  choiceA : ChoiceStats
  choiceB : ChoiceStats
deriving DecidableEq, Repr

/-- JavaScript `Math.round`: round half toward positive infinity. -/
def jsRound (q : ℚ) : Int := ⌊q + 1 / 2⌋

/-- The `stats` object built by `SchedulerService.precalculateStats` from
`totalVotes` and `votesA`. -/
def precalculateStatsObject (totalVotes votesA : Nat) : GlobalStats :=
  { totalVotes := totalVotes
    choiceA :=
      { count := votesA
        percentage :=
          if totalVotes > 0 then jsRound ((votesA : ℚ) / (totalVotes : ℚ) * 100)
          else 0 }
    choiceB :=
      { count := totalVotes - votesA
        percentage :=
          if totalVotes > 0 then
            jsRound (((totalVotes - votesA : Nat) : ℚ) / (totalVotes : ℚ) * 100)
          else 0 } }

/-- The `stats` object built by `StatsService.getGlobalStats` from
`totalVotes` and `votesA` (it names `votesB = totalVotes - votesA` first). -/
def getGlobalStatsObject (totalVotes votesA : Nat) : GlobalStats :=
  let votesB := totalVotes - votesA
  { totalVotes := totalVotes
    choiceA :=
      { count := votesA
        percentage :=
          if totalVotes > 0 then jsRound ((votesA : ℚ) / (totalVotes : ℚ) * 100)
          else 0 }
    choiceB :=
      { count := votesB
        percentage :=
          if totalVotes > 0 then jsRound ((votesB : ℚ) / (totalVotes : ℚ) * 100)
          else 0 } }

/-- The cache key written by `precalculateStats`: the template literal
`stats:global:<dilemmaId>`. -/
def precalculateStatsKey (dilemmaId : String) : String :=
  "stats:global:" ++ dilemmaId

/-- `CACHE_KEYS.STATS_GLOBAL` from the database config module, used by
`StatsService.getGlobalStats`. -/
def CACHE_KEYS_STATS_GLOBAL (dilemmaId : String) : String :=
  "stats:global:" ++ dilemmaId

/-! ## CacheService and the job handlers

`CacheService` (database config module) wraps every Redis call in a
try/catch that logs and swallows the error: `get` returns `null`, the
mutating operations return normally.  The underlying Redis and Prisma
calls are modelled as injected results that either succeed or raise. -/

/-- A `try { body } catch { log }` block returning nothing: the error is
swallowed and the call returns normally. -/
def trySwallow (body : Except String Unit) : Except String Unit :=
  match body with
  | Except.ok _ => Except.ok ()
  | Except.error _ => Except.ok ()

/-- A `try { body } catch { log; throw }` block: the error is logged and
rethrown. -/
def tryRethrow (body : Except String Unit) : Except String Unit :=
  match body with
  | Except.ok _ => Except.ok ()
  | Except.error err => Except.error err

/-- Outcomes of the raw Redis and JSON primitives a `CacheService` call
performs, injected so that failing backends can be expressed. -/
structure RedisEnv where
  getResult : String → Except String (Option String)
  parseResult : String → Except String GlobalStats
  stringifyResult : GlobalStats → Except String String
  setResult : String → String → Except String Unit
  setexResult : String → Nat → String → Except String Unit
  delResult : List String → Except String Unit
  keysResult : String → Except String (List String)

/-- `CacheService.get(key)`: `redis.get`, `null` when absent, else
`JSON.parse`; any error is caught and `null` is returned. -/
def cacheGet (env : RedisEnv) (key : String) : Except String (Option GlobalStats) :=
  match env.getResult key with
  | Except.error _ => Except.ok none
  | Except.ok none => Except.ok none
  | Except.ok (some cached) =>
      match env.parseResult cached with
      | Except.error _ => Except.ok none
      | Except.ok v => Except.ok (some v)

/-- `CacheService.set(key, value, expirationSeconds?)`: `JSON.stringify`
then `setex`/`set`; any error is caught and swallowed. -/
def cacheSet (env : RedisEnv) (key : String) (value : GlobalStats)
    (expirationSeconds : Option Nat) : Except String Unit :=
  trySwallow
    (do
      let serialized ← env.stringifyResult value
      match expirationSeconds with
      | some e => env.setexResult key e serialized
      | none => env.setResult key serialized)

/-- `CacheService.del(...keys)`: `redis.del` when at least one key is
given; any error is caught and swallowed. -/
def cacheDel (env : RedisEnv) (keys : List String) : Except String Unit :=
  trySwallow (if keys.length > 0 then env.delResult keys else Except.ok ())

/-- `CacheService.delPattern(pattern)`: `redis.keys(pattern)` then
`redis.del` of the matches when any; any error is caught and swallowed. -/
def cacheDelPattern (env : RedisEnv) (pattern : String) : Except String Unit :=
  trySwallow
    (do
      let keys ← env.keysResult pattern
      if keys.length > 0 then env.delResult keys else Except.ok ())

/-- Outcomes of the Prisma vote-count queries performed by
`precalculateStats`, injected so that database failures can be
expressed. -/
structure PrismaEnv where
  voteCountTotal : String → Except String Nat
  voteCountA : String → Except String Nat

/-- `SchedulerService.precalculateStats(dilemmaId)`: counts the votes,
builds the aggregate and caches it under `stats:global:<dilemmaId>` with a
3600-second TTL; its own try/catch logs and swallows any error without
rethrowing. -/
def precalculateStats (renv : RedisEnv) (penv : PrismaEnv)
    (dilemmaId : String) : Except String Unit :=
  trySwallow
    (do
      let totalVotes ← penv.voteCountTotal dilemmaId
      let votesA ← penv.voteCountA dilemmaId
      cacheSet renv (precalculateStatsKey dilemmaId)
        (precalculateStatsObject totalVotes votesA) (some 3600))

/-- The `'publish'` worker of `setupWorkers`: invalidates the
`dilemma:today` and `dilemma:tomorrow` cache entries; its try/catch
rethrows any error so that the store retries the job. -/
def publishHandler (renv : RedisEnv) (_dilemmaId : String) : Except String Unit :=
  tryRethrow (cacheDel renv ["dilemma:today", "dilemma:tomorrow"])

/-- The `'reveal'` worker of `setupWorkers`: pattern-invalidates
`stats:*:<dilemmaId>*`, then calls `precalculateStats`; its try/catch
rethrows any error so that the store retries the job. -/
def revealHandler (renv : RedisEnv) (penv : PrismaEnv)
    (dilemmaId : String) : Except String Unit :=
  tryRethrow
    (do
      let _ ← cacheDelPattern renv ("stats:*:" ++ dilemmaId ++ "*")
      precalculateStats renv penv dilemmaId)

/-- A Redis backend whose primitives all succeed. -/
def okRedisEnv : RedisEnv :=
  { getResult := fun _ => Except.ok none
    parseResult := fun _ => Except.error "not JSON"
    stringifyResult := fun _ => Except.ok "serialized"
    setResult := fun _ _ => Except.ok ()
    setexResult := fun _ _ _ => Except.ok ()
    delResult := fun _ => Except.ok ()
    keysResult := fun _ => Except.ok [] }

/-- A Redis backend whose every primitive raises, as when the Redis
connection is down. -/
def downRedisEnv : RedisEnv :=
  { getResult := fun _ => Except.error "redis down"
    parseResult := fun _ => Except.error "redis down"
    stringifyResult := fun _ => Except.error "redis down"
    setResult := fun _ _ => Except.error "redis down"
    setexResult := fun _ _ _ => Except.error "redis down"
    delResult := fun _ => Except.error "redis down"
    keysResult := fun _ => Except.error "redis down" }

/-- A database whose vote-count queries succeed with zero votes. -/
def okPrismaEnv : PrismaEnv :=
  { voteCountTotal := fun _ => Except.ok 0
    voteCountA := fun _ => Except.ok 0 }

/-- A database whose vote-count queries raise, as when the database is
unreachable. -/
def downPrismaEnv : PrismaEnv :=
  { voteCountTotal := fun _ => Except.error "database unavailable"
    voteCountA := fun _ => Except.error "database unavailable" }

/-! ## Helper lemmas -/

theorem trySwallow_ok (body : Except String Unit) : trySwallow body = Except.ok () := by
  cases body <;> rfl

theorem publish_ne_reveal (d : String) : "publish-" ++ d ≠ "reveal-" ++ d := by
  intro h
  have h2 := congrArg String.data h
  rw [String.data_append, String.data_append] at h2
  have hp : "publish-".data = ['p', 'u', 'b', 'l', 'i', 's', 'h', '-'] := rfl
  have hr : "reveal-".data = ['r', 'e', 'v', 'e', 'a', 'l', '-'] := rfl
  rw [hp, hr] at h2
  simp at h2

theorem containsId_iff (s : JobStore) (i : String) :
    containsId s i = true ↔ ∃ j ∈ s, j.id = i := by
  simp [containsId, List.any_eq_true]

theorem containsId_eq_false_iff (s : JobStore) (i : String) :
    containsId s i = false ↔ ∀ j ∈ s, j.id ≠ i := by
  simp [containsId]

theorem filter_id_eq_nil_of_not_contains (s : JobStore) (i : String)
    (h : containsId s i = false) :
    List.filter (fun j => j.id = i) s = [] := by
  rw [List.filter_eq_nil_iff]
  intro a ha
  simp only [decide_eq_true_eq]
  exact (containsId_eq_false_iff s i).mp h a ha

theorem filter_id_enqueue_self (s : JobStore) (jobId : String) (t : JobType)
    (p : String) (d now : Int) (hd : 0 < d) :
    List.filter (fun j => j.id = jobId) (enqueue s jobId t p d now) =
      [{ id := jobId, jtype := t, payload := p, notBefore := now + d,
         state := JobState.pending, attempts := 0 }] := by
  unfold enqueue
  rw [if_pos hd, List.filter_append]
  have h1 : List.filter (fun j => j.id = jobId)
      (List.filter (fun j => j.id ≠ jobId) s) = [] := by
    rw [List.filter_eq_nil_iff]
    intro a ha
    rw [List.mem_filter] at ha
    simp only [decide_eq_true_eq] at ha ⊢
    exact ha.2
  rw [h1]
  simp

theorem filter_id_enqueue_other (s : JobStore) (jobId : String) (t : JobType)
    (p : String) (d now : Int) (i : String) (hne : jobId ≠ i) :
    List.filter (fun j => j.id = i) (enqueue s jobId t p d now) =
      List.filter (fun j => j.id = i) s := by
  unfold enqueue
  by_cases hd : 0 < d
  · rw [if_pos hd, List.filter_append, List.filter_filter]
    have h1 : List.filter (fun j => j.id = i)
        [{ id := jobId, jtype := t, payload := p, notBefore := now + d,
           state := JobState.pending, attempts := 0 }] = ([] : JobStore) := by
      simp [hne]
    rw [h1, List.append_nil]
    apply List.filter_congr
    intro a _
    by_cases ha : a.id = i
    · have h3 : a.id ≠ jobId := fun hc => hne (hc ▸ ha)
      simp [ha, h3, Ne.symm hne]
    · simp [ha]
  · rw [if_neg hd]

theorem containsId_enqueue_self (s : JobStore) (jobId : String) (t : JobType)
    (p : String) (d now : Int) (hd : 0 < d) :
    containsId (enqueue s jobId t p d now) jobId = true := by
  rw [containsId_iff]
  refine ⟨{ id := jobId, jtype := t, payload := p, notBefore := now + d,
            state := JobState.pending, attempts := 0 }, ?_, rfl⟩
  unfold enqueue
  rw [if_pos hd]
  exact List.mem_append_right _ (List.mem_singleton.mpr rfl)

theorem containsId_enqueue_other (s : JobStore) (jobId : String) (t : JobType)
    (p : String) (d now : Int) (i : String) (hne : jobId ≠ i) :
    containsId (enqueue s jobId t p d now) i = containsId s i := by
  unfold enqueue
  by_cases hd : 0 < d
  · rw [if_pos hd]
    cases hc : containsId s i with
    | false =>
        rw [containsId_eq_false_iff] at hc
        rw [containsId_eq_false_iff]
        intro j hj
        rcases List.mem_append.mp hj with hj1 | hj2
        · exact hc j (List.mem_filter.mp hj1).1
        · rw [List.mem_singleton] at hj2
          subst hj2
          exact hne
    | true =>
        rw [containsId_iff] at hc
        obtain ⟨j, hj, hji⟩ := hc
        rw [containsId_iff]
        refine ⟨j, List.mem_append_left _ ?_, hji⟩
        rw [List.mem_filter]
        refine ⟨hj, ?_⟩
        simp only [decide_eq_true_eq]
        exact fun hc2 => hne (hc2 ▸ hji)
  · rw [if_neg hd]

theorem enqueue_of_nonpos (s : JobStore) (jobId : String) (t : JobType)
    (p : String) (d now : Int) (hd : ¬ 0 < d) :
    enqueue s jobId t p d now = s := by
  unfold enqueue
  rw [if_neg hd]

theorem getJob_eq_none_of_not_contains (s : JobStore) (i : String)
    (h : containsId s i = false) : getJob s i = none := by
  rw [getJob, List.find?_eq_none]
  intro j hj
  simp only [decide_eq_true_eq]
  exact (containsId_eq_false_iff s i).mp h j hj

theorem removeJob_of_not_contains (s : JobStore) (i : String)
    (h : containsId s i = false) : removeJob s i = s := by
  rw [removeJob, List.filter_eq_self]
  intro j hj
  simp only [decide_eq_true_eq]
  exact (containsId_eq_false_iff s i).mp h j hj

theorem containsId_removeJob_self (s : JobStore) (i : String) :
    containsId (removeJob s i) i = false := by
  rw [containsId_eq_false_iff]
  intro j hj
  have := (List.mem_filter.mp hj).2
  simpa using this

theorem containsId_removeJob_other (s : JobStore) (i i' : String)
    (h : containsId s i = false) : containsId (removeJob s i') i = false := by
  rw [containsId_eq_false_iff]
  intro j hj
  exact (containsId_eq_false_iff s i).mp h j (List.mem_filter.mp hj).1

theorem guardedRemove_eq_removeJob (s : JobStore) (i : String) :
    (if (getJob s i).isSome then removeJob s i else s) = removeJob s i := by
  by_cases h : (getJob s i).isSome
  · rw [if_pos h]
  · rw [if_neg h]
    have h0 : containsId s i = false := by
      rw [containsId_eq_false_iff]
      intro j hj hji
      rw [Option.not_isSome_iff_eq_none, getJob, List.find?_eq_none] at h
      have := h j hj
      simp only [decide_eq_true_eq] at this
      exact this hji
    rw [removeJob_of_not_contains _ _ h0]

theorem unscheduleDilemma_eq_removeJob (s : JobStore) (d : String) :
    unscheduleDilemma s d =
      removeJob (removeJob s ("publish-" ++ d)) ("reveal-" ++ d) := by
  simp only [unscheduleDilemma]
  rw [guardedRemove_eq_removeJob s ("publish-" ++ d),
    guardedRemove_eq_removeJob (removeJob s ("publish-" ++ d)) ("reveal-" ++ d)]

theorem unscheduleDilemma_clears_publish (s : JobStore) (d : String) :
    containsId (unscheduleDilemma s d) ("publish-" ++ d) = false := by
  rw [unscheduleDilemma_eq_removeJob]
  exact containsId_removeJob_other _ _ _ (containsId_removeJob_self _ _)

theorem unscheduleDilemma_clears_reveal (s : JobStore) (d : String) :
    containsId (unscheduleDilemma s d) ("reveal-" ++ d) = false := by
  rw [unscheduleDilemma_eq_removeJob]
  exact containsId_removeJob_self _ _

theorem unscheduleDilemma_of_absent (s : JobStore) (d : String)
    (hp : containsId s ("publish-" ++ d) = false)
    (hr : containsId s ("reveal-" ++ d) = false) :
    unscheduleDilemma s d = s := by
  rw [unscheduleDilemma_eq_removeJob, removeJob_of_not_contains _ _ hp,
    removeJob_of_not_contains _ _ hr]

theorem filter_scheduleDilemma_publish (s : JobStore) (d : String)
    (pd rt now : Int) (hp : containsId s ("publish-" ++ d) = false) :
    List.filter (fun j => j.id = "publish-" ++ d) (scheduleDilemma s d pd rt now) =
      if 0 < pd - now then
        [{ id := "publish-" ++ d, jtype := JobType.publish, payload := d,
           notBefore := now + (pd - now), state := JobState.pending, attempts := 0 }]
      else [] := by
  have hne : ("reveal-" ++ d) ≠ ("publish-" ++ d) := Ne.symm (publish_ne_reveal d)
  simp only [scheduleDilemma]
  by_cases h1 : 0 < pd - now
  · rw [if_pos h1, if_pos h1]
    by_cases h2 : 0 < rt - now
    · rw [if_pos h2, filter_id_enqueue_other _ _ _ _ _ _ _ hne,
        filter_id_enqueue_self _ _ _ _ _ _ h1]
    · rw [if_neg h2, filter_id_enqueue_self _ _ _ _ _ _ h1]
  · rw [if_neg h1, if_neg h1]
    by_cases h2 : 0 < rt - now
    · rw [if_pos h2, filter_id_enqueue_other _ _ _ _ _ _ _ hne,
        filter_id_eq_nil_of_not_contains _ _ hp]
    · rw [if_neg h2, filter_id_eq_nil_of_not_contains _ _ hp]

theorem filter_scheduleDilemma_reveal (s : JobStore) (d : String)
    (pd rt now : Int) (hr : containsId s ("reveal-" ++ d) = false) :
    List.filter (fun j => j.id = "reveal-" ++ d) (scheduleDilemma s d pd rt now) =
      if 0 < rt - now then
        [{ id := "reveal-" ++ d, jtype := JobType.reveal, payload := d,
           notBefore := now + (rt - now), state := JobState.pending, attempts := 0 }]
      else [] := by
  have hne : ("publish-" ++ d) ≠ ("reveal-" ++ d) := publish_ne_reveal d
  simp only [scheduleDilemma]
  by_cases h2 : 0 < rt - now
  · rw [if_pos h2]
    by_cases h1 : 0 < pd - now
    · rw [if_pos h1, filter_id_enqueue_self _ _ _ _ _ _ h2, if_pos h2]
    · rw [if_neg h1, filter_id_enqueue_self _ _ _ _ _ _ h2, if_pos h2]
  · rw [if_neg h2]
    by_cases h1 : 0 < pd - now
    · rw [if_pos h1, filter_id_enqueue_other _ _ _ _ _ _ _ hne,
        filter_id_eq_nil_of_not_contains _ _ hr, if_neg h2]
    · rw [if_neg h1, filter_id_eq_nil_of_not_contains _ _ hr, if_neg h2]

theorem containsId_scheduleDilemma_publish (s : JobStore) (d : String)
    (pd rt now : Int) (hp : containsId s ("publish-" ++ d) = false) :
    containsId (scheduleDilemma s d pd rt now) ("publish-" ++ d) =
      decide (0 < pd - now) := by
  have hne : ("reveal-" ++ d) ≠ ("publish-" ++ d) := Ne.symm (publish_ne_reveal d)
  simp only [scheduleDilemma]
  by_cases h1 : 0 < pd - now
  · rw [if_pos h1, decide_eq_true h1]
    by_cases h2 : 0 < rt - now
    · rw [if_pos h2, containsId_enqueue_other _ _ _ _ _ _ _ hne,
        containsId_enqueue_self _ _ _ _ _ _ h1]
    · rw [if_neg h2, containsId_enqueue_self _ _ _ _ _ _ h1]
  · rw [if_neg h1, decide_eq_false h1]
    by_cases h2 : 0 < rt - now
    · rw [if_pos h2, containsId_enqueue_other _ _ _ _ _ _ _ hne, hp]
    · rw [if_neg h2, hp]

theorem containsId_scheduleDilemma_reveal (s : JobStore) (d : String)
    (pd rt now : Int) (hr : containsId s ("reveal-" ++ d) = false) :
    containsId (scheduleDilemma s d pd rt now) ("reveal-" ++ d) =
      decide (0 < rt - now) := by
  have hne : ("publish-" ++ d) ≠ ("reveal-" ++ d) := publish_ne_reveal d
  simp only [scheduleDilemma]
  by_cases h2 : 0 < rt - now
  · rw [if_pos h2, decide_eq_true h2]
    by_cases h1 : 0 < pd - now
    · rw [if_pos h1, containsId_enqueue_self _ _ _ _ _ _ h2]
    · rw [if_neg h1, containsId_enqueue_self _ _ _ _ _ _ h2]
  · rw [if_neg h2, decide_eq_false h2]
    by_cases h1 : 0 < pd - now
    · rw [if_pos h1, containsId_enqueue_other _ _ _ _ _ _ _ hne, hr]
    · rw [if_neg h1, hr]

/-! ## Claims -/

/-- C1: for every pair of enqueue calls under the same job id (same type
and item id) with different timings, after the second call exactly one
live (non-terminal) job with that id exists and its `notBefore` reflects
the timing of the latest call: the duplicate enqueue is a replace, never a
duplicate entry. -/
theorem enqueue_idempotent_replace (s : JobStore) (jobId : String)
    (t : JobType) (p : String) (d1 now1 d2 now2 : Int)
    (_h1 : 0 < d1) (h2 : 0 < d2) (_hdiff : now1 + d1 ≠ now2 + d2) :
    List.filter (fun j => j.id = jobId)
        (enqueue (enqueue s jobId t p d1 now1) jobId t p d2 now2) =
      [{ id := jobId, jtype := t, payload := p, notBefore := now2 + d2,
         state := JobState.pending, attempts := 0 }] ∧
    QJob.isLive
        { id := jobId, jtype := t, payload := p, notBefore := now2 + d2,
          state := JobState.pending, attempts := 0 } = true :=
  ⟨filter_id_enqueue_self _ _ _ _ _ _ h2, rfl⟩

theorem enqueue_idempotent_replace_witness :
    (0 : Int) < 1000 ∧ (0 : Int) < 2000 ∧ ((0 : Int) + 1000 ≠ 5 + 2000) ∧
    (List.filter (fun j => j.id = "publish-a")
        (enqueue (enqueue [] ("publish-a") JobType.publish ("a") 1000 0)
          ("publish-a") JobType.publish ("a") 2000 5) =
      [{ id := "publish-a", jtype := JobType.publish, payload := "a",
         notBefore := 5 + 2000, state := JobState.pending, attempts := 0 }] ∧
     QJob.isLive
        { id := "publish-a", jtype := JobType.publish, payload := "a",
          notBefore := 5 + 2000, state := JobState.pending, attempts := 0 } = true) :=
  ⟨by decide, by decide, by decide,
    enqueue_idempotent_replace [] ("publish-a") JobType.publish ("a") 1000 0 2000 5
      (by decide) (by decide) (by decide)⟩

/-- C2: after a failed execution attempt of an active job, if the
post-increment attempt count is strictly below `maxAttempts = 3` the job
returns to `Pending` with retry delay exactly `2s * 2^(attempts-1)`;
once the attempt count reaches 3 the job becomes terminally `Failed`: it
is never claimable again and further failure processing leaves it
unchanged. -/
theorem failed_attempt_retry_policy (j : QJob) (now t : Int)
    (h : j.state = JobState.active) :
    (j.attempts + 1 < maxAttempts →
      (applyFail j now).state = JobState.pending ∧
      (applyFail j now).notBefore = now + backoffBase * 2 ^ (j.attempts + 1 - 1)) ∧
    (maxAttempts ≤ j.attempts + 1 →
      (applyFail j now).state = JobState.failed ∧
      QJob.isClaimable (applyFail j now) t = false ∧
      applyFail (applyFail j now) t = applyFail j now) := by
  constructor
  · intro hlt
    simp [applyFail, retryPolicy, h, hlt]
  · intro hge
    have hnlt : ¬ (j.attempts + 1 < maxAttempts) := not_lt.mpr hge
    simp [applyFail, retryPolicy, h, hnlt, QJob.isClaimable]

theorem failed_attempt_retry_policy_witness :
    ({ id := "publish-a", jtype := JobType.publish, payload := "a", notBefore := 0,
       state := JobState.active, attempts := 0 } : QJob).state = JobState.active ∧
    ({ id := "publish-a", jtype := JobType.publish, payload := "a", notBefore := 0,
       state := JobState.active, attempts := 0 } : QJob).attempts + 1 < maxAttempts ∧
    ((applyFail
        { id := "publish-a", jtype := JobType.publish, payload := "a", notBefore := 0,
          state := JobState.active, attempts := 0 } 100).state = JobState.pending ∧
     (applyFail
        { id := "publish-a", jtype := JobType.publish, payload := "a", notBefore := 0,
          state := JobState.active, attempts := 0 } 100).notBefore =
       100 + backoffBase * 2 ^
         (({ id := "publish-a", jtype := JobType.publish, payload := "a", notBefore := 0,
             state := JobState.active, attempts := 0 } : QJob).attempts + 1 - 1)) ∧
    ({ id := "reveal-a", jtype := JobType.reveal, payload := "a", notBefore := 0,
       state := JobState.active, attempts := 2 } : QJob).state = JobState.active ∧
    maxAttempts ≤
      ({ id := "reveal-a", jtype := JobType.reveal, payload := "a", notBefore := 0,
         state := JobState.active, attempts := 2 } : QJob).attempts + 1 ∧
    ((applyFail
        { id := "reveal-a", jtype := JobType.reveal, payload := "a", notBefore := 0,
          state := JobState.active, attempts := 2 } 100).state = JobState.failed ∧
     QJob.isClaimable
        (applyFail
          { id := "reveal-a", jtype := JobType.reveal, payload := "a", notBefore := 0,
            state := JobState.active, attempts := 2 } 100) 500 = false ∧
     applyFail
        (applyFail
          { id := "reveal-a", jtype := JobType.reveal, payload := "a", notBefore := 0,
            state := JobState.active, attempts := 2 } 100) 500 =
       applyFail
          { id := "reveal-a", jtype := JobType.reveal, payload := "a", notBefore := 0,
            state := JobState.active, attempts := 2 } 100) :=
  ⟨rfl, by decide,
    (failed_attempt_retry_policy
      { id := "publish-a", jtype := JobType.publish, payload := "a", notBefore := 0,
        state := JobState.active, attempts := 0 } 100 500 rfl).1 (by decide),
   rfl, by decide,
    (failed_attempt_retry_policy
      { id := "reveal-a", jtype := JobType.reveal, payload := "a", notBefore := 0,
        state := JobState.active, attempts := 2 } 100 500 rfl).2 (by decide)⟩

/-- C3: `scheduleDilemma(itemId, publishAt, revealAt)` enqueues a publish
job with id `publish-<itemId>` if and only if `publishAt - now > 0`, and a
reveal job with id `reveal-<itemId>` if and only if `revealAt - now > 0`;
a target time in the past never produces a job. -/
theorem scheduleDilemma_future_only (s : JobStore) (dilemmaId : String)
    (publishDate revealTime now : Int)
    (hp : containsId s ("publish-" ++ dilemmaId) = false)
    (hr : containsId s ("reveal-" ++ dilemmaId) = false) :
    (containsId (scheduleDilemma s dilemmaId publishDate revealTime now)
        ("publish-" ++ dilemmaId) = true ↔ 0 < publishDate - now) ∧
    (containsId (scheduleDilemma s dilemmaId publishDate revealTime now)
        ("reveal-" ++ dilemmaId) = true ↔ 0 < revealTime - now) := by
  rw [containsId_scheduleDilemma_publish _ _ _ _ _ hp,
    containsId_scheduleDilemma_reveal _ _ _ _ _ hr]
  constructor <;> simp

theorem scheduleDilemma_future_only_witness :
    containsId [] ("publish-" ++ "a") = false ∧
    containsId [] ("reveal-" ++ "a") = false ∧
    ((containsId (scheduleDilemma [] ("a") 10 200 50) ("publish-" ++ "a") = true ↔
        (0 : Int) < 10 - 50) ∧
     (containsId (scheduleDilemma [] ("a") 10 200 50) ("reveal-" ++ "a") = true ↔
        (0 : Int) < 200 - 50)) :=
  ⟨rfl, rfl, scheduleDilemma_future_only [] ("a") 10 200 50 rfl rfl⟩

/-- C4: `rescheduleDilemma(itemId, newPublishAt, newRevealAt)` produces the
same final store as `unscheduleDilemma` followed by `scheduleDilemma`, and
afterwards the only job under `publish-<itemId>` (resp. `reveal-<itemId>`)
is armed for the new time — the original `notBefore` values are replaced
and no job remains armed for the original times. -/
theorem rescheduleDilemma_replaces_timings (s : JobStore) (dilemmaId : String)
    (publishDate revealTime now : Int) :
    rescheduleDilemma s dilemmaId publishDate revealTime now =
      scheduleDilemma (unscheduleDilemma s dilemmaId) dilemmaId
        publishDate revealTime now ∧
    List.filter (fun j => j.id = "publish-" ++ dilemmaId)
        (rescheduleDilemma s dilemmaId publishDate revealTime now) =
      (if 0 < publishDate - now then
        [{ id := "publish-" ++ dilemmaId, jtype := JobType.publish,
           payload := dilemmaId, notBefore := publishDate,
           state := JobState.pending, attempts := 0 }]
      else []) ∧
    List.filter (fun j => j.id = "reveal-" ++ dilemmaId)
        (rescheduleDilemma s dilemmaId publishDate revealTime now) =
      (if 0 < revealTime - now then
        [{ id := "reveal-" ++ dilemmaId, jtype := JobType.reveal,
           payload := dilemmaId, notBefore := revealTime,
           state := JobState.pending, attempts := 0 }]
      else []) := by
  refine ⟨rfl, ?_, ?_⟩
  · have hp := unscheduleDilemma_clears_publish s dilemmaId
    have h := filter_scheduleDilemma_publish (unscheduleDilemma s dilemmaId)
      dilemmaId publishDate revealTime now hp
    have harith : now + (publishDate - now) = publishDate := by omega
    unfold rescheduleDilemma
    rw [h, harith]
  · have hr := unscheduleDilemma_clears_reveal s dilemmaId
    have h := filter_scheduleDilemma_reveal (unscheduleDilemma s dilemmaId)
      dilemmaId publishDate revealTime now hr
    have harith : now + (revealTime - now) = revealTime := by omega
    unfold rescheduleDilemma
    rw [h, harith]

/-- C5: startup recovery considers exactly the future-dated items: an item
is in the recovered list if and only if it is in the repository with
`publishDate > now`, and `scheduleFutureDilemmas` folds `scheduleDilemma`
over exactly that list. -/
theorem scheduleFutureDilemmas_exactly_future (repo : List Dilemma)
    (s : JobStore) (now : Int) (d : Dilemma) :
    (d ∈ futureDilemmas repo now ↔ d ∈ repo ∧ now < d.publishDate) ∧
    scheduleFutureDilemmas repo s now =
      List.foldl (fun acc x => scheduleDilemma acc x.id x.publishDate x.revealTime now)
        s (futureDilemmas repo now) := by
  constructor
  · rw [futureDilemmas, List.Perm.mem_iff (List.mergeSort_perm _ _)]
    simp [List.mem_filter]
  · rfl

theorem scheduleFutureDilemmas_exactly_future_witness :
    (({ id := "a", publishDate := 100, revealTime := 200 } : Dilemma) ∈
        futureDilemmas
          [{ id := "a", publishDate := 100, revealTime := 200 },
           { id := "b", publishDate := 10, revealTime := 20 }] 50 ↔
      ({ id := "a", publishDate := 100, revealTime := 200 } : Dilemma) ∈
          [{ id := "a", publishDate := 100, revealTime := 200 },
           { id := "b", publishDate := 10, revealTime := 20 }] ∧
        (50 : Int) < ({ id := "a", publishDate := 100, revealTime := 200 } : Dilemma).publishDate) ∧
    scheduleFutureDilemmas
        [{ id := "a", publishDate := 100, revealTime := 200 },
         { id := "b", publishDate := 10, revealTime := 20 }] [] 50 =
      List.foldl (fun acc x => scheduleDilemma acc x.id x.publishDate x.revealTime 50)
        []
        (futureDilemmas
          [{ id := "a", publishDate := 100, revealTime := 200 },
           { id := "b", publishDate := 10, revealTime := 20 }] 50) :=
  scheduleFutureDilemmas_exactly_future
    [{ id := "a", publishDate := 100, revealTime := 200 },
     { id := "b", publishDate := 10, revealTime := 20 }] [] 50
    { id := "a", publishDate := 100, revealTime := 200 }

/-- C6 (counterexample): with the vote-count queries and the Redis `keys`
primitive both failing, the reveal handler still returns success — a
failure inside either step does not fail the job, contradicting the claim
that either step's failure fails the whole handler. -/
theorem revealHandler_swallows_failures :
    downPrismaEnv.voteCountTotal ("d1") = Except.error "database unavailable" ∧
    downRedisEnv.keysResult ("stats:*:" ++ "d1" ++ "*") = Except.error "redis down" ∧
    revealHandler downRedisEnv downPrismaEnv ("d1") = Except.ok () :=
  ⟨rfl, rfl, rfl⟩

/-- C6 (amended): the reveal handler pattern-invalidates the cached
statistics for the item and then recomputes and re-caches the primary
aggregate, but a failure of either step is caught and swallowed —
`CacheService` swallows cache errors and `precalculateStats` swallows its
own errors — so the handler always returns success and is never handed to
the retry policy on account of those steps. -/
theorem revealHandler_one_unit (renv : RedisEnv) (penv : PrismaEnv)
    (dilemmaId : String) :
    revealHandler renv penv dilemmaId = Except.ok () ∧
    cacheDelPattern renv ("stats:*:" ++ dilemmaId ++ "*") = Except.ok () ∧
    precalculateStats renv penv dilemmaId = Except.ok () := by
  have hdel : cacheDelPattern renv ("stats:*:" ++ dilemmaId ++ "*") = Except.ok () := by
    unfold cacheDelPattern
    exact trySwallow_ok _
  have hpre : precalculateStats renv penv dilemmaId = Except.ok () := by
    unfold precalculateStats
    exact trySwallow_ok _
  refine ⟨?_, hdel, hpre⟩
  unfold revealHandler
  rw [hdel]
  show tryRethrow (precalculateStats renv penv dilemmaId) = Except.ok ()
  rw [hpre]
  rfl

/-- C7: the daily reconciliation job first fires at the next local
midnight, repeats once every 24 hours, and each execution of its handler
re-runs the startup-recovery logic (`scheduleFutureDilemmas`). -/
theorem dailyReconcile_schedule (now : Int) (k : Nat) (repo : List Dilemma)
    (s : JobStore) (t : Int) :
    dailyCronFireTime now 0 = nextMidnight now ∧
    dailyCronFireTime now (k + 1) - dailyCronFireTime now k = millisPerDay ∧
    dailySchedulerHandler repo s t = scheduleFutureDilemmas repo s t := by
  refine ⟨?_, ?_, rfl⟩
  · simp [dailyCronFireTime]
  · simp only [dailyCronFireTime]
    push_cast
    ring

/-- C8: `unscheduleDilemma` removes both the `publish-<itemId>` and the
`reveal-<itemId>` job when present, leaves every other job in place (it is
exactly the double removal by id), is idempotent, and on a store holding
neither job it changes nothing. -/
theorem unscheduleDilemma_removes_both_idempotent (s : JobStore)
    (dilemmaId : String) :
    unscheduleDilemma s dilemmaId =
      removeJob (removeJob s ("publish-" ++ dilemmaId)) ("reveal-" ++ dilemmaId) ∧
    containsId (unscheduleDilemma s dilemmaId) ("publish-" ++ dilemmaId) = false ∧
    containsId (unscheduleDilemma s dilemmaId) ("reveal-" ++ dilemmaId) = false ∧
    unscheduleDilemma (unscheduleDilemma s dilemmaId) dilemmaId =
      unscheduleDilemma s dilemmaId ∧
    (containsId s ("publish-" ++ dilemmaId) = false →
      containsId s ("reveal-" ++ dilemmaId) = false →
      unscheduleDilemma s dilemmaId = s) :=
  ⟨unscheduleDilemma_eq_removeJob s dilemmaId,
   unscheduleDilemma_clears_publish s dilemmaId,
   unscheduleDilemma_clears_reveal s dilemmaId,
   unscheduleDilemma_of_absent _ _ (unscheduleDilemma_clears_publish s dilemmaId)
     (unscheduleDilemma_clears_reveal s dilemmaId),
   fun hp hr => unscheduleDilemma_of_absent s dilemmaId hp hr⟩

theorem unscheduleDilemma_removes_both_idempotent_witness :
    containsId
        [{ id := "other", jtype := JobType.publish, payload := "x",
           notBefore := 50, state := JobState.pending, attempts := 0 }]
        ("publish-" ++ "a") = false ∧
    containsId
        [{ id := "other", jtype := JobType.publish, payload := "x",
           notBefore := 50, state := JobState.pending, attempts := 0 }]
        ("reveal-" ++ "a") = false ∧
    unscheduleDilemma
        [{ id := "other", jtype := JobType.publish, payload := "x",
           notBefore := 50, state := JobState.pending, attempts := 0 }] ("a") =
      [{ id := "other", jtype := JobType.publish, payload := "x",
         notBefore := 50, state := JobState.pending, attempts := 0 }] :=
  ⟨rfl, rfl,
    (unscheduleDilemma_removes_both_idempotent
      [{ id := "other", jtype := JobType.publish, payload := "x",
         notBefore := 50, state := JobState.pending, attempts := 0 }]
      ("a")).2.2.2.2 rfl rfl⟩

/-- C9: every `CacheService` operation is total with respect to
cache-store failures — `get` returns `null` on any underlying error, and
`set`, `del` and `delPattern` return normally on any underlying error; no
call propagates an exception, so a cache-store failure alone never makes a
job handler fail (the publish handler succeeds under any backend). -/
theorem cacheService_never_throws (env : RedisEnv) (key : String)
    (value : GlobalStats) (expiration : Option Nat) (keys : List String)
    (pattern : String) (dilemmaId : String) (e : String) :
    (cacheGet env key).isOk = true ∧
    cacheSet env key value expiration = Except.ok () ∧
    cacheDel env keys = Except.ok () ∧
    cacheDelPattern env pattern = Except.ok () ∧
    (env.getResult key = Except.error e → cacheGet env key = Except.ok none) ∧
    publishHandler env dilemmaId = Except.ok () := by
  refine ⟨?_, ?_, ?_, ?_, ?_, ?_⟩
  · unfold cacheGet
    rcases hg : env.getResult key with e' | o
    · rfl
    · rcases o with _ | cached
      · rfl
      · rcases hp : env.parseResult cached with e'' | v <;>
          simp [Except.isOk, Except.toBool, hp]
  · unfold cacheSet
    exact trySwallow_ok _
  · unfold cacheDel
    exact trySwallow_ok _
  · unfold cacheDelPattern
    exact trySwallow_ok _
  · intro hge
    unfold cacheGet
    rw [hge]
  · unfold publishHandler
    have hdel : cacheDel env ["dilemma:today", "dilemma:tomorrow"] = Except.ok () := by
      unfold cacheDel
      exact trySwallow_ok _
    rw [hdel]
    rfl

theorem cacheService_never_throws_witness :
    downRedisEnv.getResult ("k") = Except.error "redis down" ∧
    ((cacheGet downRedisEnv ("k")).isOk = true ∧
     cacheSet downRedisEnv ("k")
        { totalVotes := 0, choiceA := { count := 0, percentage := 0 },
          choiceB := { count := 0, percentage := 0 } } none = Except.ok () ∧
     cacheDel downRedisEnv ["x"] = Except.ok () ∧
     cacheDelPattern downRedisEnv ("p") = Except.ok () ∧
     cacheGet downRedisEnv ("k") = Except.ok none ∧
     publishHandler downRedisEnv ("d") = Except.ok ()) := by
  have h := cacheService_never_throws downRedisEnv ("k")
    { totalVotes := 0, choiceA := { count := 0, percentage := 0 },
      choiceB := { count := 0, percentage := 0 } } none ["x"] ("p") ("d") ("redis down")
  exact ⟨rfl, h.1, h.2.1, h.2.2.1, h.2.2.2.1, h.2.2.2.2.1 rfl, h.2.2.2.2.2⟩

/-- C10: the aggregate cached by the reveal path's `precalculateStats`
equals the aggregate computed by `StatsService.getGlobalStats` from the
same vote counts — `choiceA.count = votesA`,
`choiceB.count = totalVotes - votesA`, matching rounded percentages — and
both use the same `stats:global:<id>` cache key. -/
theorem precalculateStats_matches_getGlobalStats (totalVotes votesA : Nat)
    (dilemmaId : String) :
    precalculateStatsObject totalVotes votesA = getGlobalStatsObject totalVotes votesA ∧
    (precalculateStatsObject totalVotes votesA).choiceA.count = votesA ∧
    (precalculateStatsObject totalVotes votesA).choiceB.count = totalVotes - votesA ∧
    precalculateStatsKey dilemmaId = CACHE_KEYS_STATS_GLOBAL dilemmaId :=
  ⟨rfl, rfl, rfl, rfl⟩

end Dilemmas
